import Mathlib

/-!
Shallow embedding of the KeywordLens classification-and-review pipeline.

The definitions below are translated from the TypeScript sources:
 - `src/types.ts` (RelevanceStatus, KeywordItem)
 - `src/components/FileUpload.tsx` (second document: ProcessingDashboard's
   `processBatch`, classification cuts, machine-verification step,
   `handleManualExport`)
 - `src/services/gemini.ts` (`withRetry`, `batchScoreKeywords`,
   `machineVerifyKeyword`)
 - `src/unnamed/part_001` (`analyzeProductImage` with the 15 s deadline and
   GLM fallback)
 - `src/unnamed/part_002` (ReviewInterface `handleDecision`)
 - `src/services/api.ts` (`exportResults`)
-/

namespace KeywordLens

/-- The three confidence tiers of the spec: manual review, automatic keep,
excluded. -/
inductive Tier
  | manual
  | auto
  | excluded
deriving DecidableEq, Repr

/-- `RelevanceStatus` from `src/types.ts`. -/
inductive RelevanceStatus
  | PENDING
  | KEPT
  | DELETED
  | UNDECIDED
  | AUTO
  | HIGH_RELEVANCE
  | MEDIUM_RELEVANCE
  | LOW_RELEVANCE
  | MACHINE_VERIFIED
  | REJECTED
  | APPROVED
deriving DecidableEq, Repr

/-- `KeywordItem` from `src/types.ts`. Scores are JS numbers on a 0-100
scale; we embed them as rationals so fractional boundary probes such as
79.999 are exact. -/
structure KeywordItem where
  id : String
  originalText : String
  score : ℚ
  reasoning : String
  status : RelevanceStatus
  searchVolume : Option Nat
deriving DecidableEq, Repr

/-- The score→status mapping of `processBatch`
(`src/components/FileUpload.tsx`, second document, lines 386-399):
`if (s.score >= 80) HIGH_RELEVANCE else if (s.score <= 30) LOW_RELEVANCE
else MEDIUM_RELEVANCE`. -/
def scoreToStatus (s : ℚ) : RelevanceStatus :=
  if 80 ≤ s then RelevanceStatus.HIGH_RELEVANCE
  else if s ≤ 30 then RelevanceStatus.LOW_RELEVANCE
  else RelevanceStatus.MEDIUM_RELEVANCE

/-- The tier each status denotes, following the spec's glossary and the
dashboard's grouping (HIGH_RELEVANCE / MACHINE_VERIFIED / APPROVED /
AUTO / KEPT are kept automatically, MEDIUM_RELEVANCE and the undecided
statuses await human review, LOW_RELEVANCE / REJECTED / DELETED are
excluded). Total, so every item with a single status sits in exactly one
tier. -/
def tierOf : RelevanceStatus → Tier
  | RelevanceStatus.HIGH_RELEVANCE => Tier.auto
  | RelevanceStatus.MACHINE_VERIFIED => Tier.auto
  | RelevanceStatus.APPROVED => Tier.auto
  | RelevanceStatus.AUTO => Tier.auto
  | RelevanceStatus.KEPT => Tier.auto
  | RelevanceStatus.MEDIUM_RELEVANCE => Tier.manual
  | RelevanceStatus.PENDING => Tier.manual
  | RelevanceStatus.UNDECIDED => Tier.manual
  | RelevanceStatus.LOW_RELEVANCE => Tier.excluded
  | RelevanceStatus.REJECTED => Tier.excluded
  | RelevanceStatus.DELETED => Tier.excluded

/-- The classifier as a score→tier map (spec §4.2), realized in the code by
`scoreToStatus` followed by the tier grouping. -/
def classify (s : ℚ) : Tier := tierOf (scoreToStatus s)

/-- One element of the array `batchScoreKeywords` resolves with
(`src/services/gemini.ts`, response schema {keyword, score, reasoning}). -/
structure Scored where
  keyword : String
  score : ℚ
  reasoning : String
deriving DecidableEq, Repr

/-- Building a `KeywordItem` from one scored result, as `processBatch` does
(`id: generateId(), originalText: s.keyword, score: s.score,
reasoning: s.reasoning, status` from the 80/30 cuts). `generateId` is
random, so the id is a parameter. -/
def mkItem (ident : String) (s : Scored) : KeywordItem :=
  { id := ident
    originalText := s.keyword
    score := s.score
    reasoning := s.reasoning
    status := scoreToStatus s.score
    searchVolume := none }

/-- The machine-verification step of `processBatch`: only items whose status
is `LOW_RELEVANCE` are deep-checked; a positive check rewrites the status to
`MACHINE_VERIFIED` and appends the deep-check marker to the reasoning, a
negative check rewrites the status to `REJECTED`; every other item is
returned as-is. `verify` abstracts `machineVerifyKeyword` applied to the
item's original text. -/
def enhanceItem (verify : String → Bool) (item : KeywordItem) : KeywordItem :=
  if item.status = RelevanceStatus.LOW_RELEVANCE then
    if verify item.originalText then
      { item with
          status := RelevanceStatus.MACHINE_VERIFIED
          reasoning := item.reasoning ++ " (Recovered by Deep Check)" }
    else
      { item with status := RelevanceStatus.REJECTED }
  else item

/-- The mutable state of the processing dashboard: the queue of not yet
scored keyword strings (`queueRef`) and the accumulated processed items
(`processedKeywords`). -/
structure DashState where
  queue : List String
  processed : List KeywordItem
deriving DecidableEq, Repr

/-- `BATCH_SIZE` constant of the dashboard. -/
def BATCH_SIZE : Nat := 10

/-- One invocation of `processBatch` (`src/components/FileUpload.tsx`,
second document, lines 361-425), with the outcome of the external scoring
call made explicit: the batch is spliced off the front of the queue before
the `try` block; on success the scored items are classified, the
low-relevance ones machine-verified, and appended to `processed`; on
failure (the `catch` branch) nothing is appended and the spliced batch is
only logged, not returned to the queue. `idGen` abstracts `generateId`. -/
def processBatchStep (idGen : Nat → String) (verify : String → Bool)
    (outcome : Except String (List Scored)) (st : DashState) : DashState :=
  if st.queue.isEmpty then st
  else
    let rest := st.queue.drop BATCH_SIZE
    match outcome with
    | Except.ok scores =>
        let newItems := scores.enum.map (fun p => mkItem (idGen p.1) p.2)
        let enhanced := newItems.map (enhanceItem verify)
        { queue := rest, processed := st.processed ++ enhanced }
    | Except.error _ => { queue := rest, processed := st.processed }

/-- The progress figure `processBatch` computes at entry:
`((total - remaining) / total) * 100` where `remaining` is the current
queue length. -/
def progressOf (total : Nat) (st : DashState) : ℚ :=
  (((total : ℚ) - (st.queue.length : ℚ)) / (total : ℚ)) * 100

/-- A human decision in the review interface (`src/unnamed/part_002`,
`handleDecision`): the current card's status becomes `APPROVED` or
`REJECTED`; every other item is untouched. -/
def handleDecision (items : List KeywordItem) (targetId : String)
    (approved : Bool) : List KeywordItem :=
  items.map (fun k =>
    if k.id = targetId then
      { k with
          status := if approved then RelevanceStatus.APPROVED
            else RelevanceStatus.REJECTED }
    else k)

/-- Number of items of a state whose status falls in the given tier. -/
def tierCount (t : Tier) (items : List KeywordItem) : Nat :=
  (items.filter (fun k => decide (tierOf k.status = t))).length

/-- Bool test: does `pat` occur at the head of `cs`? (used to embed JS
`String.prototype.includes`). -/
def leadsWith : List Char → List Char → Bool
  | _, [] => true
  | [], _ :: _ => false
  | c :: cs, p :: ps => (c == p) && leadsWith cs ps

/-- Bool test: does `pat` occur anywhere inside `cs`? -/
def containsSub : List Char → List Char → Bool
  | [], pat => pat.isEmpty
  | c :: cs, pat => leadsWith (c :: cs) pat || containsSub cs pat

/-- JS `hay.includes(pat)` on strings. -/
def strContains (hay pat : String) : Bool :=
  containsSub hay.data pat.data

/-- JS `String.prototype.toLowerCase`, character-wise (the markers the code
checks are all ASCII, where the two lowerings agree). -/
def strToLower (s : String) : String :=
  ⟨s.data.map Char.toLower⟩

/-- The transient-error test of `withRetry` (`src/services/gemini.ts`
lines 20-25): the lower-cased message contains `429`, `quota`,
`resource exhausted` or `limit`. -/
def isQuotaError (msg : String) : Bool :=
  let m := strToLower msg
  strContains m "429" || strContains m "quota"
    || strContains m "resource exhausted" || strContains m "limit"

/-- Recursion core of `withRetry` (`src/services/gemini.ts` lines 16-34).
`op k` is the outcome of the k-th invocation of the wrapped operation.
Returns the surfaced result, the number of attempts made, and the list of
backoff delays slept. On failure the code retries only when
`retries > 0 && isQuotaError`, halving the fuel and doubling the delay. -/
def withRetryGo (op : Nat → Except String α) :
    Nat → Nat → Nat → Except String α × Nat × List Nat
  | 0, _, k =>
      match op k with
      | Except.ok a => (Except.ok a, k + 1, [])
      | Except.error e => (Except.error e, k + 1, [])
  | r + 1, delayMs, k =>
      match op k with
      | Except.ok a => (Except.ok a, k + 1, [])
      | Except.error e =>
          if isQuotaError e then
            let rest := withRetryGo op r (delayMs * 2) (k + 1)
            (rest.1, rest.2.1, delayMs :: rest.2.2)
          else (Except.error e, k + 1, [])

/-- `withRetry` with its default arguments `retries = 5`,
`initialDelay = 2000`. -/
def withRetry (op : Nat → Except String α) : Except String α × Nat × List Nat :=
  withRetryGo op 5 2000 0

/-- The product-analysis record `{description, category, features[]}`
returned by both the primary (`analyzeProductImage`, `src/unnamed/part_001`)
and the secondary (`analyzeImageWithGlm`, `src/services/glm.ts`) backend. -/
structure ProductAnalysis where
  description : String
  category : String
  features : List String
deriving DecidableEq, Repr

/-- The 15 000 ms deadline of the `Promise.race` in `analyzeProductImage`
(`src/unnamed/part_001` lines 80-85). -/
def geminiDeadlineMs : Nat := 15000

/-- The `Promise.race([geminiPromise, timeoutPromise])`: if the primary call
completes strictly before the deadline its own outcome wins, otherwise the
race rejects with the timeout error. -/
def raceWithTimeout (completionMs : Nat)
    (res : Except String ProductAnalysis) : Except String ProductAnalysis :=
  if completionMs < geminiDeadlineMs then res
  else Except.error "Gemini Request Timed Out"

/-- `analyzeProductImage` of `src/unnamed/part_001`: the primary (Gemini)
attempt races the 15 s deadline inside a `try`; any rejection — timeout,
transport failure, or an empty text payload — lands in the `catch`, which
performs exactly one call of `analyzeImageWithGlm` and returns its outcome
unwrapped: the fallback is not retried and its error (glm.ts rethrows)
surfaces to the caller. `completionMs` is the primary call's wall-clock
duration, `geminiRes` its outcome, `glmRes` the secondary backend's. -/
def analyzeProductImage (completionMs : Nat)
    (geminiRes : Except String ProductAnalysis)
    (glmRes : Except String ProductAnalysis) : Except String ProductAnalysis :=
  match raceWithTimeout completionMs geminiRes with
  | Except.ok a => Except.ok a
  | Except.error _ => glmRes

/-- `batchScoreKeywords` response handling (`src/services/gemini.ts`
lines 163-164): `if (!response.text) return []; return
JSON.parse(response.text)`. `payload` is `response.text` (`none` for an
absent field, `some ""` for an empty string — both falsy in JS); `parse`
abstracts a successful `JSON.parse`. The promise resolves (`Except.ok`) in
every branch shown. -/
def batchScoreKeywords (parse : String → List Scored)
    (payload : Option String) : Except String (List Scored) :=
  match payload with
  | none => Except.ok []
  | some t => if t = "" then Except.ok [] else Except.ok (parse t)

/-- `machineVerifyKeyword` response handling (`src/services/gemini.ts`
lines 203-205): `if (!response.text) return false; return
JSON.parse(response.text).isMatch`. -/
def machineVerifyKeyword (parse : String → Bool)
    (payload : Option String) : Bool :=
  match payload with
  | none => false
  | some t => if t = "" then false else parse t

/-- A backend HTTP response as seen by `exportResults`
(`src/services/api.ts`): its `ok` flag and its body text. -/
structure HttpResponse where
  ok : Bool
  body : String
deriving DecidableEq, Repr

/-- `exportResults` (`src/services/api.ts` lines 95-117): a non-ok response
throws an `Error` and triggers no download. The nested `try` throws
`Error(json.detail || "Export failed")`, but that throw is itself inside the
`try`, so the `catch (e)` always replaces it with
`Error(errText || "Export failed")`: the surfaced message is the raw body
text, or `"Export failed"` when the body is empty. An ok response downloads
the blob (`Except.ok ()`). -/
def exportResults (resp : HttpResponse) : Except String Unit :=
  if resp.ok then Except.ok ()
  else Except.error (if resp.body = "" then "Export failed" else resp.body)

/-- One row of the spreadsheet `handleManualExport` writes. -/
structure ExportRow where
  keyword : String
  score : ℚ
  status : RelevanceStatus
  reasoning : String
deriving DecidableEq, Repr

/-- The outcome of `handleManualExport`: whether `XLSX.writeFile` ran and
the rows it wrote. -/
structure ManualExportOutcome where
  fileWritten : Bool
  rows : List ExportRow
deriving DecidableEq, Repr

/-- `handleManualExport` (`src/components/FileUpload.tsx`, second document,
lines 441-454): maps the processed keywords to rows and unconditionally
calls `XLSX.writeFile` — there is no emptiness check and no error path. -/
def handleManualExport (items : List KeywordItem) : ManualExportOutcome :=
  { fileWritten := true
    rows := items.map (fun k =>
      { keyword := k.originalText, score := k.score, status := k.status,
        reasoning := k.reasoning }) }

/-- Modelled from the spec: the backend `/export` endpoint served by the
Python backend (`server.py`, reachable through `src/services/api.ts` but not
present under `src/`). Spec §4.6 and §8: it "fails with a descriptive
error — not an empty artifact — if invoked with zero items in the session",
i.e. it answers a non-ok response with a descriptive body for an empty
session and an ok (downloadable) response otherwise. -/
def backendExport (items : List KeywordItem) : HttpResponse :=
  if items.isEmpty then { ok := false, body := "No keywords to export" }
  else { ok := true, body := "" }

end KeywordLens

namespace KeywordLens

/-- Helper: the three tier counts always partition any item list, because
`tierOf` is a total function of the single `status` field. -/
theorem tierCount_partition (items : List KeywordItem) :
    tierCount Tier.manual items + tierCount Tier.auto items
      + tierCount Tier.excluded items = items.length := by
  induction items with
  | nil => rfl
  | cons h t ih =>
      simp only [tierCount, List.filter] at ih ⊢
      cases htier : tierOf h.status <;> simp [htier] <;> omega

/-- Helper: the attempt counter of `withRetryGo` is bounded by the starting
index plus the fuel plus one. -/
theorem withRetryGo_attempts_le {α : Type} (op : Nat → Except String α) :
    ∀ (r d k : Nat), (withRetryGo op r d k).2.1 ≤ k + r + 1 := by
  intro r
  induction r with
  | zero =>
      intro d k
      cases hop : op k <;> simp [withRetryGo, hop]
  | succ n ih =>
      intro d k
      cases hop : op k with
      | ok a => simp [withRetryGo, hop]
      | error e =>
          by_cases hq : isQuotaError e
          · simp only [withRetryGo, hop, hq, if_true]
            have := ih (d * 2) (k + 1)
            omega
          · simp [withRetryGo, hop, hq]

/-- C1: the classifier assigns exactly one tier per score with inclusive
default cuts 80 and 30: `score ≥ 80 → auto`, `score ≤ 30 → excluded`,
strictly between → manual; in particular 80 → auto, 79.999 → manual,
30 → excluded, 30.001 → manual. -/
theorem classify_default_cuts :
    (∀ s : ℚ, (classify s = Tier.auto ↔ 80 ≤ s)
      ∧ (classify s = Tier.excluded ↔ s ≤ 30)
      ∧ (classify s = Tier.manual ↔ 30 < s ∧ s < 80))
    ∧ classify 80 = Tier.auto
    ∧ classify (79999 / 1000 : ℚ) = Tier.manual
    ∧ classify 30 = Tier.excluded
    ∧ classify (30001 / 1000 : ℚ) = Tier.manual := by
  refine ⟨fun s => ?_, by norm_num [classify, scoreToStatus, tierOf],
    by norm_num [classify, scoreToStatus, tierOf],
    by norm_num [classify, scoreToStatus, tierOf],
    by norm_num [classify, scoreToStatus, tierOf]⟩
  unfold classify scoreToStatus
  split_ifs with h80 h30
  · refine ⟨?_, ?_, ?_⟩
    · simpa [tierOf] using h80
    · simp only [tierOf]
      constructor
      · intro hx
        exact absurd hx (by simp)
      · intro hx
        linarith
    · simp only [tierOf]
      constructor
      · intro hx
        exact absurd hx (by simp)
      · intro hx
        linarith [hx.2]
  · refine ⟨?_, ?_, ?_⟩
    · simp only [tierOf]
      constructor
      · intro hx
        exact absurd hx (by simp)
      · intro hx
        exact absurd hx h80
    · simpa [tierOf] using h30
    · simp only [tierOf]
      constructor
      · intro hx
        exact absurd hx (by simp)
      · intro hx
        linarith [hx.1]
  · refine ⟨?_, ?_, ?_⟩
    · simp only [tierOf]
      constructor
      · intro hx
        exact absurd hx (by simp)
      · intro hx
        exact absurd hx h80
    · simp only [tierOf]
      constructor
      · intro hx
        exact absurd hx (by simp)
      · intro hx
        exact absurd hx h30
    · simp only [tierOf, true_iff, iff_true]
      push_neg at h80 h30
      exact ⟨h30, h80⟩

/-- C2: every keyword item has exactly one status, and `tierOf` is total, so
the manual + auto + excluded counts equal the total item count in any state;
in particular the invariant holds after a batch-scoring step (which includes
the machine-verification rewrites moving items out of the excluded tier) and
after any human decision. -/
theorem tier_partition_invariant :
    ∀ (items : List KeywordItem) (idGen : Nat → String)
      (verify : String → Bool) (outcome : Except String (List Scored))
      (st : DashState) (targetId : String) (approved : Bool),
      (tierCount Tier.manual items + tierCount Tier.auto items
        + tierCount Tier.excluded items = items.length)
      ∧ (tierCount Tier.manual (processBatchStep idGen verify outcome st).processed
          + tierCount Tier.auto (processBatchStep idGen verify outcome st).processed
          + tierCount Tier.excluded (processBatchStep idGen verify outcome st).processed
          = (processBatchStep idGen verify outcome st).processed.length)
      ∧ (tierCount Tier.manual (handleDecision items targetId approved)
          + tierCount Tier.auto (handleDecision items targetId approved)
          + tierCount Tier.excluded (handleDecision items targetId approved)
          = items.length) := by
  intro items idGen verify outcome st targetId approved
  refine ⟨tierCount_partition items, tierCount_partition _, ?_⟩
  rw [tierCount_partition]
  simp [handleDecision]

/-- C7: the machine-verification pass leaves every manual-tier item
completely unchanged — tier, status, score, reasoning and all other
fields. -/
theorem verification_preserves_manual (verify : String → Bool)
    (item : KeywordItem) (h : tierOf item.status = Tier.manual) :
    enhanceItem verify item = item := by
  unfold enhanceItem
  have hne : item.status ≠ RelevanceStatus.LOW_RELEVANCE := by
    intro he
    rw [he] at h
    simp [tierOf] at h
  simp [hne]

/-- Witness for `verification_preserves_manual` at a concrete manual-tier
item and a verifier that would rescue anything it is asked about. -/
theorem verification_preserves_manual_witness :
    enhanceItem (fun _ => true)
      { id := "k1", originalText := "kw", score := 50, reasoning := "mid",
        status := RelevanceStatus.MEDIUM_RELEVANCE, searchVolume := none }
      = { id := "k1", originalText := "kw", score := 50, reasoning := "mid",
          status := RelevanceStatus.MEDIUM_RELEVANCE, searchVolume := none } :=
  verification_preserves_manual (fun _ => true) _ (by decide)

/-- C6: running the verification step over an excluded (`LOW_RELEVANCE`)
item: a positive deep check moves it to the auto tier with the verified-keep
status (`MACHINE_VERIFIED`) and populates the evidence annotation appended
to its reasoning; a negative deep check keeps it in the excluded tier with
the verified-drop status (`REJECTED`), which is distinct from the
never-checked `LOW_RELEVANCE` status. -/
theorem verification_rescue_spec (verify : String → Bool)
    (item : KeywordItem) (h : item.status = RelevanceStatus.LOW_RELEVANCE) :
    (verify item.originalText = true →
      enhanceItem verify item
        = { item with
            status := RelevanceStatus.MACHINE_VERIFIED
            reasoning := item.reasoning ++ " (Recovered by Deep Check)" }
      ∧ tierOf (enhanceItem verify item).status = Tier.auto)
    ∧ (verify item.originalText = false →
      enhanceItem verify item = { item with status := RelevanceStatus.REJECTED }
      ∧ tierOf (enhanceItem verify item).status = Tier.excluded
      ∧ (enhanceItem verify item).status ≠ RelevanceStatus.LOW_RELEVANCE) := by
  constructor
  · intro hv
    unfold enhanceItem
    simp [h, hv, tierOf]
  · intro hv
    unfold enhanceItem
    simp [h, hv, tierOf]

/-- Witness for `verification_rescue_spec`: a matching excluded item is
rescued to `MACHINE_VERIFIED` with the deep-check annotation, a
non-matching one is confirmed `REJECTED`. -/
theorem verification_rescue_spec_witness :
    (enhanceItem (fun _ => true)
        { id := "k2", originalText := "kw2", score := 10, reasoning := "low",
          status := RelevanceStatus.LOW_RELEVANCE, searchVolume := none }
      = { id := "k2", originalText := "kw2", score := 10,
          reasoning := "low (Recovered by Deep Check)",
          status := RelevanceStatus.MACHINE_VERIFIED, searchVolume := none })
    ∧ (enhanceItem (fun _ => false)
        { id := "k3", originalText := "kw3", score := 10, reasoning := "low",
          status := RelevanceStatus.LOW_RELEVANCE, searchVolume := none }
      = { id := "k3", originalText := "kw3", score := 10, reasoning := "low",
          status := RelevanceStatus.REJECTED, searchVolume := none }) := by
  constructor
  · exact ((verification_rescue_spec (fun _ => true) _ rfl).1 rfl).1
  · exact ((verification_rescue_spec (fun _ => false) _ rfl).2 rfl).1

/-- Counterexample for C4: at the concrete state with the single queued
keyword `"alpha"`, a batch whose scoring call fails (here with a quota
error already past its retries) is spliced off the queue and never returned
to it — the resulting queue is empty, so the batch is not re-queueable —
and the dequeue-based progress figure the dashboard computes jumps from 0
to 100 even though nothing was scored. -/
theorem batch_failure_requeue_cex :
    processBatchStep (fun _ => "id") (fun _ => true)
        (Except.error "Error: 429 RESOURCE_EXHAUSTED")
        { queue := ["alpha"], processed := [] }
      = { queue := [], processed := [] }
    ∧ progressOf 1 { queue := ["alpha"], processed := [] } = 0
    ∧ progressOf 1 { queue := [], processed := [] } = 100 := by
  refine ⟨rfl, ?_, ?_⟩
  · norm_num [progressOf]
  · norm_num [progressOf]

/-- C4 as amended: when the scoring call for a batch fails, the failure is
all-or-nothing — no item of the batch is scored or enters any tier and the
processed list (hence every already-processed batch) is untouched — but the
failed batch is dropped from the queue permanently (it is not re-queued for
later scoring) and the dequeue-based progress advances past it. -/
theorem batch_failure_all_or_nothing (idGen : Nat → String)
    (verify : String → Bool) (e : String) (st : DashState)
    (h : st.queue ≠ []) :
    processBatchStep idGen verify (Except.error e) st
      = { queue := st.queue.drop BATCH_SIZE, processed := st.processed } := by
  cases hq : st.queue with
  | nil => exact absurd hq h
  | cons a t =>
      unfold processBatchStep
      simp [hq]

/-- Witness for `batch_failure_all_or_nothing` at a concrete one-keyword
queue. -/
theorem batch_failure_all_or_nothing_witness :
    processBatchStep (fun _ => "id") (fun _ => true) (Except.error "429 quota")
        { queue := ["beta"], processed := [] }
      = { queue := [], processed := [] } :=
  batch_failure_all_or_nothing (fun _ => "id") (fun _ => true) "429 quota"
    { queue := ["beta"], processed := [] } (by decide)

/-- C3: `withRetry` retries a transiently failing call with exponential
backoff — at most 5 retries, delays doubling from the 2000 ms base
(2000, 4000, 8000, 16000, 32000) — and surfaces the error only after the
sixth and last attempt; a permanently failing call (message without a
quota/rate-limit marker) propagates its error immediately after a single
attempt; and no run ever makes more than 6 attempts. -/
theorem withRetry_transient_permanent :
    (∀ (op : Nat → Except String Unit),
        (∀ k, k ≤ 5 → ∃ e, op k = Except.error e ∧ isQuotaError e = true) →
        ∃ e, op 5 = Except.error e
          ∧ withRetry op = (Except.error e, 6, [2000, 4000, 8000, 16000, 32000]))
    ∧ (∀ (op : Nat → Except String Unit) (e : String),
        op 0 = Except.error e → isQuotaError e = false →
        withRetry op = (Except.error e, 1, []))
    ∧ (∀ (op : Nat → Except String Unit), (withRetry op).2.1 ≤ 6) := by
  refine ⟨?_, ?_, ?_⟩
  · intro op h
    obtain ⟨e0, h0, q0⟩ := h 0 (by norm_num)
    obtain ⟨e1, h1, q1⟩ := h 1 (by norm_num)
    obtain ⟨e2, h2, q2⟩ := h 2 (by norm_num)
    obtain ⟨e3, h3, q3⟩ := h 3 (by norm_num)
    obtain ⟨e4, h4, q4⟩ := h 4 (by norm_num)
    obtain ⟨e5, h5, q5⟩ := h 5 (by norm_num)
    refine ⟨e5, h5, ?_⟩
    unfold withRetry
    simp [withRetryGo, h0, q0, h1, q1, h2, q2, h3, q3, h4, q4, h5]
  · intro op e h hq
    unfold withRetry
    simp [withRetryGo, h, hq]
  · intro op
    have hb := withRetryGo_attempts_le op 5 2000 0
    simpa [withRetry] using hb

/-- Witness for `withRetry_transient_permanent`: a call that always fails
with `429` is attempted 6 times with the doubling delays; a call that fails
once with an auth error is attempted exactly once. -/
theorem withRetry_transient_permanent_witness :
    (∃ e, (fun _ : Nat => (Except.error "429" : Except String Unit)) 5
        = Except.error e
      ∧ withRetry (fun _ : Nat => (Except.error "429" : Except String Unit))
        = (Except.error e, 6, [2000, 4000, 8000, 16000, 32000]))
    ∧ withRetry (fun _ : Nat => (Except.error "auth denied 401" : Except String Unit))
      = (Except.error "auth denied 401", 1, []) := by
  constructor
  · exact withRetry_transient_permanent.1 _ (fun k _ => ⟨"429", rfl, by decide⟩)
  · exact withRetry_transient_permanent.2.1 _ _ rfl (by decide)

/-- C5: the product-image analysis races a 15 000 ms wall-clock deadline;
whenever the primary call exceeds the deadline or fails, the result is
exactly the single outcome of the secondary (GLM) backend — same
`ProductAnalysis` schema, no retry, no further cascading, so a failing
secondary surfaces its error — while a primary success within the deadline
never falls back. -/
theorem analyze_image_fallback :
    (∀ (t : Nat) (g glm : Except String ProductAnalysis),
        geminiDeadlineMs ≤ t → analyzeProductImage t g glm = glm)
    ∧ (∀ (t : Nat) (e : String) (glm : Except String ProductAnalysis),
        analyzeProductImage t (Except.error e) glm = glm)
    ∧ (∀ (t : Nat) (g glm : Except String ProductAnalysis) (a : ProductAnalysis),
        t < geminiDeadlineMs → g = Except.ok a →
        analyzeProductImage t g glm = Except.ok a)
    ∧ geminiDeadlineMs = 15000 := by
  refine ⟨?_, ?_, ?_, rfl⟩
  · intro t g glm h
    unfold analyzeProductImage raceWithTimeout
    rw [if_neg (not_lt.mpr h)]
  · intro t e glm
    unfold analyzeProductImage raceWithTimeout
    split_ifs <;> rfl
  · intro t g glm a h hg
    unfold analyzeProductImage raceWithTimeout
    rw [if_pos h, hg]

/-- Witness for `analyze_image_fallback`: a timed-out primary surfaces the
secondary's error unchanged; a failed primary within the deadline takes the
secondary's success; a primary success never falls back. -/
theorem analyze_image_fallback_witness :
    analyzeProductImage 20000
        (Except.ok { description := "d", category := "c", features := [] })
        (Except.error "Zhipu/GLM returned no content")
      = Except.error "Zhipu/GLM returned no content"
    ∧ analyzeProductImage 1000 (Except.error "No content received from Gemini AI")
        (Except.ok { description := "d2", category := "c2", features := ["f"] })
      = Except.ok { description := "d2", category := "c2", features := ["f"] }
    ∧ analyzeProductImage 1000
        (Except.ok { description := "d", category := "c", features := [] })
        (Except.error "x")
      = Except.ok { description := "d", category := "c", features := [] } := by
  refine ⟨?_, ?_, ?_⟩
  · exact analyze_image_fallback.1 20000 _ _ (by norm_num [geminiDeadlineMs])
  · exact analyze_image_fallback.2.1 1000 _ _
  · exact analyze_image_fallback.2.2.1 1000 _ _ _ (by norm_num [geminiDeadlineMs]) rfl

/-- Counterexample for C8: invoking the manual export with zero keyword
items in the session writes a file with zero rows and raises no error — a
silently produced empty artifact, contradicting the claim that export with
zero items fails and produces no file. -/
theorem export_empty_silent_success_cex :
    (handleManualExport []).fileWritten = true
    ∧ (handleManualExport []).rows = [] :=
  ⟨rfl, rfl⟩

/-- C8 as amended: the backend export path (`exportResults`) surfaces a
descriptive, non-empty structured error and triggers no download whenever
the server answers non-ok — in particular for the empty session the
spec-modelled backend rejects — but the client-side manual export
(`handleManualExport`) writes a spreadsheet unconditionally, so with zero
items it silently produces an empty artifact. -/
theorem export_error_paths :
    (∀ resp : HttpResponse, resp.ok = false →
        ∃ m, exportResults resp = Except.error m ∧ m ≠ "")
    ∧ (∃ m, exportResults (backendExport []) = Except.error m ∧ m ≠ "")
    ∧ (∀ items : List KeywordItem, (handleManualExport items).fileWritten = true) := by
  refine ⟨?_, ⟨"No keywords to export", rfl, by decide⟩, fun items => rfl⟩
  intro resp h
  unfold exportResults
  rw [if_neg (by simp [h])]
  by_cases hb : resp.body = ""
  · exact ⟨"Export failed", by rw [if_pos hb], by decide⟩
  · exact ⟨resp.body, by rw [if_neg hb], hb⟩

/-- Witness for `export_error_paths` at a concrete non-ok response. -/
theorem export_error_paths_witness :
    ∃ m, exportResults { ok := false, body := "session empty" }
        = Except.error m ∧ m ≠ "" :=
  export_error_paths.1 { ok := false, body := "session empty" } rfl

/-- C9: when the scoring backend responds with an empty or absent text
payload, `batchScoreKeywords` resolves with the empty array instead of
throwing, and a batch step consuming that empty array appends nothing: the
batch's keywords are silently left unscored with no error surfaced. -/
theorem batchScore_empty_payload :
    ∀ (parse : String → List Scored) (idGen : Nat → String)
      (verify : String → Bool) (st : DashState),
      batchScoreKeywords parse none = Except.ok []
      ∧ batchScoreKeywords parse (some "") = Except.ok []
      ∧ (processBatchStep idGen verify (Except.ok []) st).processed
          = st.processed := by
  intro parse idGen verify st
  refine ⟨rfl, rfl, ?_⟩
  unfold processBatchStep
  split_ifs with h
  · rfl
  · simp

/-- C10: the deep check is fail-closed: an empty or absent text payload
makes `machineVerifyKeyword` return `false`, and a `false` verifier verdict
can only send an excluded item to `REJECTED`, never to the verified-keep
status `MACHINE_VERIFIED`. -/
theorem machineVerify_fail_closed (parse : String → Bool)
    (item : KeywordItem) (h : item.status = RelevanceStatus.LOW_RELEVANCE) :
    machineVerifyKeyword parse none = false
    ∧ machineVerifyKeyword parse (some "") = false
    ∧ (∀ verify : String → Bool, verify item.originalText = false →
        enhanceItem verify item
          = { item with status := RelevanceStatus.REJECTED }
        ∧ (enhanceItem verify item).status ≠ RelevanceStatus.MACHINE_VERIFIED) := by
  refine ⟨rfl, rfl, ?_⟩
  intro verify hv
  unfold enhanceItem
  simp [h, hv]

/-- Witness for `machineVerify_fail_closed` at a concrete excluded item and
the constantly-false verifier an empty payload induces. -/
theorem machineVerify_fail_closed_witness :
    machineVerifyKeyword (fun _ => true) none = false
    ∧ enhanceItem (fun _ => false)
        { id := "k4", originalText := "kw4", score := 5, reasoning := "r",
          status := RelevanceStatus.LOW_RELEVANCE, searchVolume := none }
      = { id := "k4", originalText := "kw4", score := 5, reasoning := "r",
          status := RelevanceStatus.REJECTED, searchVolume := none } := by
  refine ⟨?_, ?_⟩
  · exact (machineVerify_fail_closed (fun _ => true)
      { id := "k4", originalText := "kw4", score := 5, reasoning := "r",
        status := RelevanceStatus.LOW_RELEVANCE, searchVolume := none } rfl).1
  · exact ((machineVerify_fail_closed (fun _ => true)
      { id := "k4", originalText := "kw4", score := 5, reasoning := "r",
        status := RelevanceStatus.LOW_RELEVANCE, searchVolume := none } rfl).2.2
      (fun _ => false) rfl).1

end KeywordLens
